import Mathlib

/-!
Verification of the yolo_detection_docker repository.

The development shallowly embeds the control logic of the two source files:

* `scripts/detection_reader.py` — the location-feed client (`get_detection`,
  `extract_pathname`, the poller's store step, `get_last_detection`);
* `scripts/yolo_detection_self.py` — the detection orchestrator (`detection`
  box filtering, `get_config`, `get_robot_pose`, and the `main` loop's
  gating / cadence / warning-deduplication / publish logic).

External collaborators (HTTP transport, the YOLO model, the RTSP capture)
appear as inputs: an iteration receives the frame-read outcome, the current
location string, the frame dimensions and the list of raw boxes the model
returned.  Machine reals of the source (the `0.9` area-ratio comparison) are
modelled with exact rationals.
-/

namespace YoloSpec

/-! ## JSON values and the location-feed client (detection_reader.py) -/

/-- JSON values, as produced by `response.json()`.  Objects are association
lists; key lookup mirrors Python dict `.get`. -/
inductive Json where
  | null : Json
  | bool (b : Bool) : Json
  | num (n : Int) : Json
  | str (s : String) : Json
  | arr (xs : List Json) : Json
  | obj (fields : List (String × Json)) : Json

/-- Python truthiness of a JSON value (`if detection:` / `if pathname:`). -/
def jsonTruthy : Json → Bool
  | .null => false
  | .bool b => b
  | .num n => !(n == 0)
  | .str s => !(s == "")
  | .arr xs => !xs.isEmpty
  | .obj fs => !fs.isEmpty

/-- Truthiness of an optional JSON value; Python `None` is falsy. -/
def pathTruthy : Option Json → Bool
  | none => false
  | some v => jsonTruthy v

/-- The outcome of `requests.get` as seen by `get_detection`:  either the
request raised `RequestException`, or a response with a status code and a
body that either fails JSON decoding or parses to a value. -/
inductive BodyParse where
  | invalid : BodyParse
  | value (j : Json) : BodyParse

inductive HttpResult where
  | requestError : HttpResult
  | response (status : Nat) (body : BodyParse) : HttpResult

/-- Python exceptions that can escape the modelled code paths. -/
inductive PyExn where
  | attributeError : PyExn
deriving DecidableEq

/-- Console diagnostics emitted by the client, by message identity. -/
inductive LogMsg where
  | requestFailed : LogMsg
  | jsonDecodeFailed : LogMsg
  | httpError (status : Nat) : LogMsg
  | serverErrorStatus : LogMsg
  | noDetections : LogMsg
  | noPathnameFound : LogMsg
deriving DecidableEq

/-- `data.get('status') == 'success'` on a looked-up field. -/
def isSuccess : Option Json → Bool
  | some (.str s) => s == "success"
  | _ => false

/-- `DetectionReader.get_detection` (detection_reader.py lines 33-64):
one GET; 200 + parsed body + status field `"success"` + present `detection`
key yields the detection value; each listed failure yields `None` plus a
log line.  `data.get('status')` on a non-object body raises
`AttributeError`, which no handler of this method catches. -/
def get_detection (r : HttpResult) : Except PyExn (Option Json × List LogMsg) :=
  match r with
  | .requestError => .ok (none, [.requestFailed])
  | .response status body =>
    if status = 200 then
      match body with
      | .invalid => .ok (none, [.jsonDecodeFailed])
      | .value j =>
        match j with
        | .obj fs =>
          if isSuccess (fs.lookup "status") then
            match fs.lookup "detection" with
            | some d => .ok (some d, [])
            | none => .ok (none, [.noDetections])
          else .ok (none, [.serverErrorStatus])
        | _ => .error .attributeError
    else .ok (none, [.httpError status])

/-- `DetectionReader.extract_pathname` (lines 66-83): `detection.get('InPathName')`;
raises `AttributeError` when the detection value is not an object. -/
def extract_pathname (d : Json) : Except PyExn (Option Json) :=
  match d with
  | .obj fs => .ok (fs.lookup "InPathName")
  | _ => .error .attributeError

/-- One fetch of the location feed as wired in `_reading_loop`
(lines 91-103): call `get_detection`; if the result is truthy, extract the
pathname; if that is truthy, store the detection in the slot, otherwise log
`noPathnameFound`; falsy detections are skipped silently.  Returns the new
slot contents and the diagnostics of this cycle. -/
def fetchStep (r : HttpResult) (slot : Option Json) :
    Except PyExn (Option Json × List LogMsg) :=
  match get_detection r with
  | .error e => .error e
  | .ok (dOpt, logs) =>
    match dOpt with
    | none => .ok (slot, logs)
    | some d =>
      if jsonTruthy d then
        match extract_pathname d with
        | .error e => .error e
        | .ok p =>
          if pathTruthy p then .ok (some d, logs)
          else .ok (slot, logs ++ [.noPathnameFound])
      else .ok (slot, logs)

/-! ## Lock discipline of the shared slot (detection_reader.py) -/

/-- The two attributes of `DetectionReader` written by the poller thread and
read by the orchestrator. -/
inductive SlotVar where
  | lastDetection : SlotVar
  | pathname : SlotVar
deriving DecidableEq

/-- Straight-line lock/slot instructions as they appear in the source. -/
inductive LockInstr where
  | acquire : LockInstr
  | release : LockInstr
  | readVar (v : SlotVar) : LockInstr
  | writeVar (v : SlotVar) : LockInstr
deriving DecidableEq

/-- `DetectionReader.get_last_detection` (lines 134-142): `with self.lock:
return self.last_detection`. -/
def get_last_detection_code : List LockInstr :=
  [.acquire, .readVar .lastDetection, .release]

/-- One successful store in `_reading_loop` (lines 91-100): `extract_pathname`
assigns `self.pathname` (line 81) before the lock is taken; then `with
self.lock: self.last_detection = detection`. -/
def poller_store_code : List LockInstr :=
  [.writeVar .pathname, .acquire, .writeVar .lastDetection, .release]

/-- The orchestrator's per-iteration location read, `path_name =
listener.pathname` (yolo_detection_self.py line 163): a bare attribute read,
no lock. -/
def main_location_read_code : List LockInstr :=
  [.readVar .pathname]

/-- All slot accesses in the program occur while the lock depth is
positive. -/
def accessesGuardedFrom : Nat → List LockInstr → Bool
  | _, [] => true
  | d, .acquire :: rest => accessesGuardedFrom (d + 1) rest
  | d, .release :: rest => accessesGuardedFrom (d - 1) rest
  | d, .readVar _ :: rest => (decide (0 < d)) && accessesGuardedFrom d rest
  | d, .writeVar _ :: rest => (decide (0 < d)) && accessesGuardedFrom d rest

def accessesGuarded (p : List LockInstr) : Bool := accessesGuardedFrom 0 p

/-- Accesses to one particular slot variable occur under the lock. -/
def varAccessesGuardedFrom (v : SlotVar) : Nat → List LockInstr → Bool
  | _, [] => true
  | d, .acquire :: rest => varAccessesGuardedFrom v (d + 1) rest
  | d, .release :: rest => varAccessesGuardedFrom v (d - 1) rest
  | d, .readVar w :: rest =>
    (if w = v then decide (0 < d) else true) && varAccessesGuardedFrom v d rest
  | d, .writeVar w :: rest =>
    (if w = v then decide (0 < d) else true) && varAccessesGuardedFrom v d rest

def varAccessesGuarded (v : SlotVar) (p : List LockInstr) : Bool :=
  varAccessesGuardedFrom v 0 p

/-! ## Box filtering (yolo_detection_self.py, `detection`) -/

/-- A box as returned by the model: `x1, y1, x2, y2 = map(int, box.xyxy[0])`. -/
structure RawBox where
  x1 : Int
  y1 : Int
  x2 : Int
  y2 : Int
deriving DecidableEq

/-- The per-box record appended to the envelope's `bounding_box` list
(lines 45-51). -/
structure DetBox where
  x1 : Int
  y1 : Int
  x2 : Int
  y2 : Int
  width : Int
  height : Int
deriving DecidableEq

def toDetBox (b : RawBox) : DetBox :=
  ⟨b.x1, b.y1, b.x2, b.y2, b.x2 - b.x1, b.y2 - b.y1⟩

/-- `(x2 - x1) * (y2 - y1) / (frame_height * frame_width)`, with real
division modelled exactly over the rationals. -/
def areaFrac (h w : Nat) (b : RawBox) : ℚ :=
  (((b.x2 - b.x1) * (b.y2 - b.y1) : Int) : ℚ) / ((h : ℚ) * (w : ℚ))

/-- The guard of line 44: the box is kept when its area fraction is
strictly below 0.9. -/
def keepBox (h w : Nat) (b : RawBox) : Bool :=
  decide (areaFrac h w b < 9 / 10)

/-- `detection` (lines 34-55), restricted to its pure filtering content: the
loop appends, for every kept box, one record to `detections` and one
coordinate list to `bbox_list`. -/
def detection (h w : Nat) (boxes : List RawBox) :
    List DetBox × List (List Int) :=
  ((boxes.filter (keepBox h w)).map toDetBox,
   (boxes.filter (keepBox h w)).map (fun b => [b.x1, b.x2, b.y1, b.y2]))

/-! ## Pose construction (yolo_detection_self.py, `get_robot_pose`) -/

/-- Python dict insertion: an existing key is updated in place, a new key is
appended. -/
def pyDictInsert (fs : List (String × Int)) (k : String) (v : Int) :
    List (String × Int) :=
  if fs.any (fun p => p.1 = k) then
    fs.map (fun p => if p.1 = k then (k, v) else p)
  else fs ++ [(k, v)]

/-- A Python dict literal: entries inserted left to right, later duplicates
overwriting earlier ones. -/
def pyDictLit (entries : List (String × Int)) : List (String × Int) :=
  entries.foldl (fun d e => pyDictInsert d e.1 e.2) []

/-- `get_robot_pose` (lines 121-128): the literal lists the key `"y"` twice
(position y and yaw), so the resulting dict has five keys. -/
def get_robot_pose : List (String × Int) :=
  pyDictLit [("x", 0), ("y", 0), ("z", 0), ("r", 0), ("p", 0), ("y", 0)]

/-! ## The orchestrator main loop (yolo_detection_self.py, `main`) -/

/-- The hardcoded approved-location list `valid_path = ["a","b"]`
(line 158). -/
def validPath : List String := ["a", "b"]

/-- State carried across loop iterations: `detection_period` (initially 3,
line 156) and the warning-deduplication flag `posted_warning` (initially
False, line 159). -/
structure OrchState where
  detectionPeriod : Nat
  postedWarning : Bool
deriving DecidableEq

def initState : OrchState := ⟨3, false⟩

/-- The external inputs one loop iteration consumes: the location string
read from the listener, the frame-read outcome, the elapsed seconds since
the previous detection attempt, the frame dimensions, and the boxes the
model returns for this frame. -/
structure IterInput where
  pathName : String
  frameOk : Bool
  elapsed : Nat
  frameH : Nat
  frameW : Nat
  boxes : List RawBox
deriving DecidableEq

/-- The published record, restricted to the fields the claims are about:
`pose` (line 182), `bounding_box` (line 54) and `people_count` (line 196). -/
structure Envelope where
  pose : List (String × Int)
  bounding_box : List DetBox
  people_count : Nat
deriving DecidableEq

/-- The observable events of one iteration. -/
structure IterOutput where
  warningLogged : Bool
  resumeLogged : Bool
  ranDetection : Bool
  published : Option Envelope
deriving DecidableEq

def quietOutput : IterOutput := ⟨false, false, false, none⟩

/-- One iteration of the `while True` loop (lines 162-204), assuming the
per-cycle configuration lookups succeed (they are treated separately in
`runLoop` below).  Branch order follows the source: frame read, throttle
check, gating, detection, publish decision, cadence update. -/
def orchIter (s : OrchState) (i : IterInput) : OrchState × IterOutput :=
  if i.frameOk then
    if s.detectionPeriod < i.elapsed then
      if i.pathName ∉ validPath then
        if s.postedWarning then (s, quietOutput)
        else (⟨s.detectionPeriod, true⟩, ⟨true, false, false, none⟩)
      else
        let resumed := s.postedWarning
        let r := detection i.frameH i.frameW i.boxes
        if r.2.length ≠ 0 then
          (⟨15, false⟩,
           ⟨false, resumed, true, some ⟨get_robot_pose, r.1, r.2.length⟩⟩)
        else
          (⟨7, false⟩, ⟨false, resumed, true, none⟩)
    else (s, quietOutput)
  else (s, quietOutput)

/-- Run the loop over a list of iteration inputs, collecting outputs. -/
def runIters : OrchState → List IterInput → OrchState × List IterOutput
  | s, [] => (s, [])
  | s, i :: rest =>
    let r := orchIter s i
    let next := runIters r.1 rest
    (next.1, r.2 :: next.2)

/-- Whether an iteration reaches the gating check: the frame was read and
the throttle elapsed (line 167), for a given current cadence. -/
def evalsGating (dp : Nat) (i : IterInput) : Bool :=
  i.frameOk && decide (dp < i.elapsed)

def warnCount (outs : List IterOutput) : Nat :=
  outs.countP fun o => o.warningLogged

def resumeCount (outs : List IterOutput) : Nat :=
  outs.countP fun o => o.resumeLogged

/-! ## Configuration resolution (yolo_detection_self.py) -/

/-- The exit produced by `get_config` on a missing key (lines 73-77):
`sys.exit(1)` after printing the available keys. -/
structure ExitDiag where
  code : Nat
  available : List String
deriving DecidableEq

/-- `get_config` (lines 71-78): return the entry for `key`, or exit 1 with
a diagnostic listing the available keys. -/
def get_config {α : Type} (table : List (String × α)) (key : String) :
    Except ExitDiag α :=
  match table.lookup key with
  | some v => .ok v
  | none => .error ⟨1, table.map Prod.fst⟩

/-- The configuration sections the program consults. -/
structure Config where
  models : List (String × String)
  robot : List (String × String)
  camera : List (String × String)
  classes : List (String × List Int)
  confidence : List (String × ℚ)

/-- The model types for which `classes` is read from configuration
(lines 183-186); any other type gets the literal `[0]` (line 189). -/
def specialTypes : List String := ["bicylce", "pets", "vehicle", "person"]

def classListSelected (cfg : Config) (modelType : String) :
    Except ExitDiag (List Int) :=
  if modelType ∈ specialTypes then get_config cfg.classes modelType
  else .ok [0]

/-- The configuration lookups of one gating-passed cycle, in source order
(lines 180, 181, 187, 192): robot, camera, class list, confidence. -/
def resolveCycleConfig (cfg : Config) (modelType streamUrl : String) :
    Except ExitDiag (String × String × List Int × ℚ) :=
  match get_config cfg.robot streamUrl with
  | .error d => .error d
  | .ok robot =>
    match get_config cfg.camera streamUrl with
    | .error d => .error d
    | .ok camera =>
      match classListSelected cfg modelType with
      | .error d => .error d
      | .ok classList =>
        match get_config cfg.confidence modelType with
        | .error d => .error d
        | .ok conf => .ok (robot, camera, classList, conf)

/-- How a whole run ends. -/
inductive RunOutcome where
  | exitedAtStartup (d : ExitDiag) : RunOutcome
  | exitedInLoop (framesProcessed : Nat) (d : ExitDiag) : RunOutcome
  | finished (framesProcessed : Nat) : RunOutcome
deriving DecidableEq

/-- The main loop with configuration faults made explicit: a gating-passed
cycle resolves the per-cycle configuration and exits with its diagnostic if
a key is missing; `frame_count` counts successful frame reads (line 166). -/
def runLoop (cfg : Config) (modelType streamUrl : String) :
    OrchState → Nat → List IterInput → RunOutcome
  | _, frames, [] => .finished frames
  | s, frames, i :: rest =>
    if i.frameOk then
      if s.detectionPeriod < i.elapsed then
        if i.pathName ∉ validPath then
          runLoop cfg modelType streamUrl
            (if s.postedWarning then s else ⟨s.detectionPeriod, true⟩)
            (frames + 1) rest
        else
          match resolveCycleConfig cfg modelType streamUrl with
          | .error d => .exitedInLoop (frames + 1) d
          | .ok _ =>
            let r := detection i.frameH i.frameW i.boxes
            runLoop cfg modelType streamUrl
              ⟨if r.2.length ≠ 0 then 15 else 7, false⟩ (frames + 1) rest
      else runLoop cfg modelType streamUrl s (frames + 1) rest
    else runLoop cfg modelType streamUrl s frames rest

/-- `main` up to and including the model lookup (line 151), then the loop:
the only configuration key resolved before the loop is the model path. -/
def runMain (cfg : Config) (modelType streamUrl : String)
    (iters : List IterInput) : RunOutcome :=
  match get_config cfg.models modelType with
  | .error d => .exitedAtStartup d
  | .ok _ => runLoop cfg modelType streamUrl initState 0 iters

/-! ## Concrete inputs used by witnesses -/

def b0 : RawBox := ⟨0, 0, 10, 10⟩

def inpPub : IterInput := ⟨"a", true, 4, 100, 100, [b0]⟩

def inpEmpty : IterInput := ⟨"a", true, 4, 100, 100, []⟩

def inpBad : IterInput := ⟨"c", true, 4, 100, 100, []⟩

def env0 : Envelope := ⟨get_robot_pose, [toDetBox b0], 1⟩

/-! ## Case lemmas for one orchestrator iteration -/

lemma evalsGating_true_elim {dp : Nat} {i : IterInput}
    (h : evalsGating dp i = true) : i.frameOk = true ∧ dp < i.elapsed := by
  simpa [evalsGating] using h

lemma orchIter_not_gating (s : OrchState) (i : IterInput)
    (h : evalsGating s.detectionPeriod i = false) :
    orchIter s i = (s, quietOutput) := by
  have h1 : i.frameOk = true → i.elapsed ≤ s.detectionPeriod := by
    simpa [evalsGating] using h
  cases hf : i.frameOk
  · simp [orchIter, hf]
  · simp [orchIter, hf, Nat.not_lt.mpr (h1 hf)]

lemma orchIter_ineligible_fresh (s : OrchState) (i : IterInput)
    (hg : evalsGating s.detectionPeriod i = true)
    (hp : i.pathName ∉ validPath) (hw : s.postedWarning = false) :
    orchIter s i = (⟨s.detectionPeriod, true⟩, ⟨true, false, false, none⟩) := by
  obtain ⟨hf, he⟩ := evalsGating_true_elim hg
  simp [orchIter, hf, he, hp, hw]

lemma orchIter_ineligible_warned (s : OrchState) (i : IterInput)
    (hg : evalsGating s.detectionPeriod i = true)
    (hp : i.pathName ∉ validPath) (hw : s.postedWarning = true) :
    orchIter s i = (s, quietOutput) := by
  obtain ⟨hf, he⟩ := evalsGating_true_elim hg
  simp [orchIter, hf, he, hp, hw]

lemma orchIter_eligible_found (s : OrchState) (i : IterInput)
    (hg : evalsGating s.detectionPeriod i = true)
    (hp : i.pathName ∈ validPath)
    (hn : (detection i.frameH i.frameW i.boxes).2.length ≠ 0) :
    orchIter s i =
      (⟨15, false⟩, ⟨false, s.postedWarning, true,
        some ⟨get_robot_pose, (detection i.frameH i.frameW i.boxes).1,
              (detection i.frameH i.frameW i.boxes).2.length⟩⟩) := by
  obtain ⟨hf, he⟩ := evalsGating_true_elim hg
  simp [orchIter, hf, he, hp, hn]

lemma orchIter_eligible_none (s : OrchState) (i : IterInput)
    (hg : evalsGating s.detectionPeriod i = true)
    (hp : i.pathName ∈ validPath)
    (hn : (detection i.frameH i.frameW i.boxes).2.length = 0) :
    orchIter s i = (⟨7, false⟩, ⟨false, s.postedWarning, true, none⟩) := by
  obtain ⟨hf, he⟩ := evalsGating_true_elim hg
  simp [orchIter, hf, he, hp, hn]

/-! ## Claim C3: box filtering -/

lemma toDetBox_inj : Function.Injective toDetBox := by
  intro a c hac
  cases a; cases c
  simp only [toDetBox, DetBox.mk.injEq] at hac
  obtain ⟨h1, h2, h3, h4, -, -⟩ := hac
  simp [RawBox.mk.injEq, h1, h2, h3, h4]

/-- Claim C3: a box returned by the model is excluded from the assembled
envelope exactly when its area, divided by the frame area, is at least 0.9;
every box with ratio strictly below 0.9 appears in the envelope's
`bounding_box` list with its coordinates unmodified and with
`width = x2 - x1`, `height = y2 - y1`. -/
theorem detection_filter_spec (h w : Nat) (boxes : List RawBox) (b : RawBox)
    (hb : b ∈ boxes) :
    (toDetBox b ∉ (detection h w boxes).1 ↔ 9 / 10 ≤ areaFrac h w b) ∧
    (areaFrac h w b < 9 / 10 → toDetBox b ∈ (detection h w boxes).1) := by
  have hmem : toDetBox b ∈ (detection h w boxes).1 ↔ keepBox h w b = true := by
    constructor
    · intro hm
      rcases List.mem_map.mp hm with ⟨c, hc, hcb⟩
      rcases List.mem_filter.mp hc with ⟨-, hkeep⟩
      rwa [toDetBox_inj hcb] at hkeep
    · intro hkeep
      exact List.mem_map.mpr ⟨b, List.mem_filter.mpr ⟨hb, hkeep⟩, rfl⟩
  constructor
  · rw [hmem]
    simp [keepBox, not_lt]
  · intro hlt
    exact hmem.mpr (by simpa [keepBox] using hlt)

/-- Claim C3 witness at a concrete small box in a 100 by 100 frame. -/
theorem detection_filter_spec_witness :
    b0 ∈ [b0] ∧ toDetBox b0 ∈ (detection 100 100 [b0]).1 :=
  ⟨List.mem_singleton.mpr rfl,
   (detection_filter_spec 100 100 [b0] b0 (List.mem_singleton.mpr rfl)).2
     (by norm_num [areaFrac, b0])⟩

/-! ## Claim C1: gating suppresses publishing -/

/-- Claim C1: an iteration whose current location is outside the approved
set never publishes an envelope, whatever the frame contains and whatever
state the loop is in. -/
theorem gating_blocks_publish (s : OrchState) (i : IterInput)
    (h : i.pathName ∉ validPath) :
    (orchIter s i).2.published = none := by
  cases hg : evalsGating s.detectionPeriod i
  · rw [orchIter_not_gating s i hg]; rfl
  · cases hw : s.postedWarning
    · rw [orchIter_ineligible_fresh s i hg h hw]
    · rw [orchIter_ineligible_warned s i hg h hw]; rfl

/-- Claim C1 witness at location `"c"`. -/
theorem gating_blocks_publish_witness :
    inpBad.pathName ∉ validPath ∧
    (orchIter initState inpBad).2.published = none :=
  ⟨by decide, gating_blocks_publish initState inpBad (by decide)⟩

/-! ## Claim C2: cadence transitions -/

lemma orchIter_period_of_no_detection (s : OrchState) (i : IterInput)
    (h : (orchIter s i).2.ranDetection = false) :
    (orchIter s i).1.detectionPeriod = s.detectionPeriod := by
  cases hg : evalsGating s.detectionPeriod i
  · rw [orchIter_not_gating s i hg]
  · by_cases hp : i.pathName ∈ validPath
    · rcases eq_or_ne (detection i.frameH i.frameW i.boxes).2.length 0 with h0 | h0
      · rw [orchIter_eligible_none s i hg hp h0] at h
        simp at h
      · rw [orchIter_eligible_found s i hg hp h0] at h
        simp at h
    · cases hw : s.postedWarning
      · rw [orchIter_ineligible_fresh s i hg hp hw]
      · rw [orchIter_ineligible_warned s i hg hp hw]

lemma runIters_period_of_no_detection :
    ∀ (inputs : List IterInput) (s : OrchState),
      ((runIters s inputs).2.all fun o => !o.ranDetection) = true →
      (runIters s inputs).1.detectionPeriod = s.detectionPeriod := by
  intro inputs
  induction inputs with
  | nil => intro s _; simp [runIters]
  | cons i rest ih =>
    intro s h
    simp only [runIters, List.all_cons, Bool.and_eq_true] at h
    have h1 : (orchIter s i).2.ranDetection = false := by
      simpa using h.1
    calc (runIters s (i :: rest)).1.detectionPeriod
        = (runIters (orchIter s i).1 rest).1.detectionPeriod := rfl
      _ = (orchIter s i).1.detectionPeriod := ih _ h.2
      _ = s.detectionPeriod := orchIter_period_of_no_detection s i h1

/-- Claim C2: the cadence starts at 3 and stays 3 through any run with no
detection attempt; every cycle that ran detection sets it to 15 when at
least one box survived and to 7 when none did; an iteration never assigns
the cadence any value other than its previous one, 15 or 7. -/
theorem cadence_transitions :
    initState.detectionPeriod = 3 ∧
    (∀ inputs : List IterInput,
      ((runIters initState inputs).2.all fun o => !o.ranDetection) = true →
      (runIters initState inputs).1.detectionPeriod = 3) ∧
    (∀ (s : OrchState) (i : IterInput),
      (orchIter s i).2.ranDetection = true →
      ((detection i.frameH i.frameW i.boxes).2.length ≠ 0 →
        (orchIter s i).1.detectionPeriod = 15) ∧
      ((detection i.frameH i.frameW i.boxes).2.length = 0 →
        (orchIter s i).1.detectionPeriod = 7)) ∧
    (∀ (s : OrchState) (i : IterInput),
      (orchIter s i).1.detectionPeriod = s.detectionPeriod ∨
      (orchIter s i).1.detectionPeriod = 15 ∨
      (orchIter s i).1.detectionPeriod = 7) := by
  refine ⟨rfl, fun inputs h => runIters_period_of_no_detection inputs initState h,
    fun s i hrd => ⟨fun hn => ?_, fun h0 => ?_⟩, fun s i => ?_⟩
  · rw [orchIter_eligible_found s i ?hg ?hp hn]
    case hg =>
      cases hg : evalsGating s.detectionPeriod i
      · rw [orchIter_not_gating s i hg] at hrd
        simp [quietOutput] at hrd
      · rfl
    case hp =>
      by_cases hp : i.pathName ∈ validPath
      · exact hp
      · exfalso
        cases hg : evalsGating s.detectionPeriod i
        · rw [orchIter_not_gating s i hg] at hrd
          simp [quietOutput] at hrd
        · cases hw : s.postedWarning
          · rw [orchIter_ineligible_fresh s i hg hp hw] at hrd
            simp at hrd
          · rw [orchIter_ineligible_warned s i hg hp hw] at hrd
            simp [quietOutput] at hrd
  · rw [orchIter_eligible_none s i ?hg2 ?hp2 h0]
    case hg2 =>
      cases hg : evalsGating s.detectionPeriod i
      · rw [orchIter_not_gating s i hg] at hrd
        simp [quietOutput] at hrd
      · rfl
    case hp2 =>
      by_cases hp : i.pathName ∈ validPath
      · exact hp
      · exfalso
        cases hg : evalsGating s.detectionPeriod i
        · rw [orchIter_not_gating s i hg] at hrd
          simp [quietOutput] at hrd
        · cases hw : s.postedWarning
          · rw [orchIter_ineligible_fresh s i hg hp hw] at hrd
            simp at hrd
          · rw [orchIter_ineligible_warned s i hg hp hw] at hrd
            simp [quietOutput] at hrd
  · cases hg : evalsGating s.detectionPeriod i
    · rw [orchIter_not_gating s i hg]
      left; rfl
    · by_cases hp : i.pathName ∈ validPath
      · rcases eq_or_ne (detection i.frameH i.frameW i.boxes).2.length 0 with h0 | h0
        · rw [orchIter_eligible_none s i hg hp h0]
          right; right; rfl
        · rw [orchIter_eligible_found s i hg hp h0]
          right; left; rfl
      · cases hw : s.postedWarning
        · rw [orchIter_ineligible_fresh s i hg hp hw]
          left; rfl
        · rw [orchIter_ineligible_warned s i hg hp hw]
          left; rfl

/-! ## Evaluation lemmas at the concrete witness inputs -/

lemma keepBox_b0 : keepBox 100 100 b0 = true := by
  have h : areaFrac 100 100 b0 < 9 / 10 := by norm_num [areaFrac, b0]
  simpa [keepBox] using h

lemma detection_pub :
    detection 100 100 [b0] = ([toDetBox b0], [[b0.x1, b0.x2, b0.y1, b0.y2]]) := by
  simp [detection, keepBox_b0]

lemma orchIter_pub :
    orchIter initState inpPub = (⟨15, false⟩, ⟨false, false, true, some env0⟩) := by
  have hg : evalsGating initState.detectionPeriod inpPub = true := by decide
  have hp : inpPub.pathName ∈ validPath := by decide
  have hn : (detection inpPub.frameH inpPub.frameW inpPub.boxes).2.length ≠ 0 := by
    show (detection 100 100 [b0]).2.length ≠ 0
    rw [detection_pub]
    decide
  rw [orchIter_eligible_found initState inpPub hg hp hn]
  show _ = (⟨15, false⟩, ⟨false, false, true, some env0⟩)
  have : (detection inpPub.frameH inpPub.frameW inpPub.boxes) =
      ([toDetBox b0], [[b0.x1, b0.x2, b0.y1, b0.y2]]) := detection_pub
  rw [this]
  rfl

/-- Claim C2 witness: from the initial state, a cycle with one surviving
box sets the cadence to 15, and a cycle with no surviving box sets it
to 7. -/
theorem cadence_transitions_witness :
    (orchIter initState inpPub).2.ranDetection = true ∧
    (orchIter initState inpPub).1.detectionPeriod = 15 ∧
    (orchIter initState inpEmpty).1.detectionPeriod = 7 :=
  ⟨by rw [orchIter_pub],
   (cadence_transitions.2.2.1 initState inpPub (by rw [orchIter_pub])).1
     (by rw [show detection inpPub.frameH inpPub.frameW inpPub.boxes =
         ([toDetBox b0], [[b0.x1, b0.x2, b0.y1, b0.y2]]) from detection_pub]; decide),
   (cadence_transitions.2.2.1 initState inpEmpty (by decide)).2 (by decide)⟩

/-! ## Claim C4: warning deduplication and resumption -/

lemma run_warned_ineligible :
    ∀ (inputs : List IterInput) (dp : Nat),
      (∀ i ∈ inputs, i.pathName ∉ validPath) →
      warnCount (runIters ⟨dp, true⟩ inputs).2 = 0 ∧
      resumeCount (runIters ⟨dp, true⟩ inputs).2 = 0 ∧
      (runIters ⟨dp, true⟩ inputs).1 = ⟨dp, true⟩ := by
  intro inputs
  induction inputs with
  | nil => intro dp _; simp [runIters, warnCount, resumeCount]
  | cons i rest ih =>
    intro dp h
    have hi : i.pathName ∉ validPath := h i (by simp)
    have hrest : ∀ j ∈ rest, j.pathName ∉ validPath :=
      fun j hj => h j (by simp [hj])
    have step : orchIter ⟨dp, true⟩ i = (⟨dp, true⟩, quietOutput) := by
      cases hg : evalsGating dp i
      · exact orchIter_not_gating _ _ hg
      · exact orchIter_ineligible_warned _ _ hg hi rfl
    obtain ⟨w1, r1, s1⟩ := ih dp hrest
    refine ⟨?_, ?_, ?_⟩ <;>
      simp [runIters, step, warnCount, resumeCount, quietOutput,
        List.countP_cons] at * <;>
      simp_all

lemma run_fresh_ineligible :
    ∀ (inputs : List IterInput) (dp : Nat),
      (∀ i ∈ inputs, i.pathName ∉ validPath) →
      warnCount (runIters ⟨dp, false⟩ inputs).2 =
        (if inputs.any fun i => evalsGating dp i then 1 else 0) ∧
      resumeCount (runIters ⟨dp, false⟩ inputs).2 = 0 ∧
      (runIters ⟨dp, false⟩ inputs).1 =
        ⟨dp, inputs.any fun i => evalsGating dp i⟩ := by
  intro inputs
  induction inputs with
  | nil => intro dp _; simp [runIters, warnCount, resumeCount]
  | cons i rest ih =>
    intro dp h
    have hi : i.pathName ∉ validPath := h i (by simp)
    have hrest : ∀ j ∈ rest, j.pathName ∉ validPath :=
      fun j hj => h j (by simp [hj])
    cases hg : evalsGating dp i
    · have step : orchIter ⟨dp, false⟩ i = (⟨dp, false⟩, quietOutput) :=
        orchIter_not_gating _ _ hg
      obtain ⟨w1, r1, s1⟩ := ih dp hrest
      refine ⟨?_, ?_, ?_⟩ <;>
        simp [runIters, step, warnCount, resumeCount, quietOutput,
          List.countP_cons, List.any_cons, hg] at * <;>
        simp_all
    · have step : orchIter ⟨dp, false⟩ i =
          (⟨dp, true⟩, ⟨true, false, false, none⟩) :=
        orchIter_ineligible_fresh _ _ hg hi rfl
      obtain ⟨w1, r1, s1⟩ := run_warned_ineligible rest dp hrest
      refine ⟨?_, ?_, ?_⟩ <;>
        simp [runIters, step, warnCount, resumeCount, quietOutput,
          List.countP_cons, List.any_cons, hg] at * <;>
        simp_all

/-- An approved-location iteration whose elapsed time stays under the
cadence: it never reaches the gating check, so it cannot clear the flag. -/
def inpApprovedThrottled : IterInput := ⟨"a", true, 2, 100, 100, []⟩

/-- Claim C4 counterexample: a reachable trace from the initial state —
an ineligible gating evaluation (warning logged, flag set), then an
approved-location iteration that stays under the throttle (no gating
evaluation, so line 176 never runs and no resume is logged), then an
ineligible gating evaluation again.  The final iteration is a contiguous
ineligible period of its own, begun right after an approved-location
iteration, and it contains a gating evaluation yet logs the warning zero
times — not exactly once as the claim states. -/
theorem warning_period_counterexample :
    inpBad.pathName ∉ validPath ∧
    inpApprovedThrottled.pathName ∈ validPath ∧
    ((runIters initState [inpBad, inpApprovedThrottled, inpBad]).2.map
      fun o => o.warningLogged) = [true, false, false] ∧
    ((runIters initState [inpBad, inpApprovedThrottled, inpBad]).2.map
      fun o => o.resumeLogged) = [false, false, false] ∧
    evalsGating 3 inpBad = true ∧
    evalsGating 3 inpApprovedThrottled = false ∧
    (runIters initState [inpBad, inpApprovedThrottled, inpBad]).1 =
      ⟨3, true⟩ := by decide

/-- Claim C4 amended: during a contiguous ineligible period that starts
with the deduplication flag clear — as initially, and after any approved
iteration that reaches the gating check — the warning is logged exactly
once, at the first gating evaluation of the period, which sets the flag,
and no resume notice appears; a period that starts with the flag still set
(reachable when an approved interlude never reaches a gating evaluation)
logs no warning at all; from a set flag, an approved-location iteration
that reaches gating logs the resume notice once, clears the flag and
proceeds to detection; with the flag clear no resume notice is ever
logged; the flag starts clear. -/
theorem warning_dedup :
    (∀ (s : OrchState) (inputs : List IterInput),
      s.postedWarning = false →
      (∀ i ∈ inputs, i.pathName ∉ validPath) →
      (inputs.any fun i => evalsGating s.detectionPeriod i) = true →
      warnCount (runIters s inputs).2 = 1 ∧
      resumeCount (runIters s inputs).2 = 0 ∧
      (runIters s inputs).1.postedWarning = true) ∧
    (∀ (s : OrchState) (inputs : List IterInput),
      s.postedWarning = true →
      (∀ i ∈ inputs, i.pathName ∉ validPath) →
      warnCount (runIters s inputs).2 = 0 ∧
      resumeCount (runIters s inputs).2 = 0 ∧
      (runIters s inputs).1.postedWarning = true) ∧
    (∀ (s : OrchState) (i : IterInput),
      s.postedWarning = true → i.pathName ∈ validPath →
      evalsGating s.detectionPeriod i = true →
      (orchIter s i).2.resumeLogged = true ∧
      (orchIter s i).1.postedWarning = false ∧
      (orchIter s i).2.ranDetection = true) ∧
    (∀ (s : OrchState) (i : IterInput),
      s.postedWarning = false → (orchIter s i).2.resumeLogged = false) ∧
    initState.postedWarning = false := by
  refine ⟨?_, ?_, ?_, ?_, rfl⟩
  · intro s inputs hw hin hany
    have hs : s = ⟨s.detectionPeriod, false⟩ := by
      cases s; simp_all
    rw [hs] at hany ⊢
    obtain ⟨w1, r1, s1⟩ := run_fresh_ineligible inputs s.detectionPeriod hin
    refine ⟨by rw [w1, hany]; rfl, r1, by rw [s1]; simpa using hany⟩
  · intro s inputs hw hin
    have hs : s = ⟨s.detectionPeriod, true⟩ := by
      cases s; simp_all
    rw [hs]
    obtain ⟨w1, r1, s1⟩ := run_warned_ineligible inputs s.detectionPeriod hin
    exact ⟨w1, r1, by rw [s1]⟩
  · intro s i hw hp hg
    rcases eq_or_ne (detection i.frameH i.frameW i.boxes).2.length 0 with h0 | h0
    · rw [orchIter_eligible_none s i hg hp h0]
      exact ⟨hw, rfl, rfl⟩
    · rw [orchIter_eligible_found s i hg hp h0]
      exact ⟨hw, rfl, rfl⟩
  · intro s i hw
    cases hg : evalsGating s.detectionPeriod i
    · rw [orchIter_not_gating s i hg]; rfl
    · by_cases hp : i.pathName ∈ validPath
      · rcases eq_or_ne (detection i.frameH i.frameW i.boxes).2.length 0 with h0 | h0
        · rw [orchIter_eligible_none s i hg hp h0]
          exact hw
        · rw [orchIter_eligible_found s i hg hp h0]
          exact hw
      · rw [orchIter_ineligible_fresh s i hg hp hw]

/-- Claim C4 amended witness: one ineligible iteration from the initial
state logs the warning once and sets the flag. -/
theorem warning_dedup_witness :
    warnCount (runIters initState [inpBad]).2 = 1 ∧
    resumeCount (runIters initState [inpBad]).2 = 0 ∧
    (runIters initState [inpBad]).1.postedWarning = true :=
  warning_dedup.1 initState [inpBad] rfl (by decide) (by decide)

/-! ## Claim C5: lock discipline of the shared location state -/

/-- Claim C5 counterexample: the location read the orchestrator actually
performs (`path_name = listener.pathname`, line 163) is not under the lock,
and the poller's write of `pathname` (line 81) is not under the lock
either — so it is false that every orchestrator read and every poller write
of the shared location state happen under the mutual-exclusion lock. -/
theorem slot_lock_counterexample :
    accessesGuarded main_location_read_code = false ∧
    varAccessesGuarded .pathname poller_store_code = false := by decide

/-- Claim C5 amended: the lock protects exactly the `last_detection` slot —
`get_last_detection` reads it and the poller writes it under the lock — but
the orchestrator's location read targets the `pathname` attribute outside
any lock, the poller also writes `pathname` unguarded, and that read
performs no lock acquisition, hence never blocks. -/
theorem slot_lock_discipline :
    accessesGuarded get_last_detection_code = true ∧
    varAccessesGuarded .lastDetection poller_store_code = true ∧
    varAccessesGuarded .pathname poller_store_code = false ∧
    accessesGuarded main_location_read_code = false ∧
    LockInstr.acquire ∉ main_location_read_code := by decide

/-! ## Claim C6: failure behaviour of the location-feed fetch -/

/-- The body of the counterexample: a successful status with a present but
empty detection object, i.e. one missing the identifier field. -/
def cBody : Json :=
  .obj [("status", .str "success"), ("detection", .obj [])]

/-- Claim C6 counterexample: for the failure case of a missing identifier
field on an empty detection object, the fetch yields an absent result but
logs nothing — `if detection:` skips a falsy detection silently — so it is
false that every listed failure case both yields absent and logs a
diagnostic. -/
theorem fetch_silent_counterexample :
    fetchStep (.response 200 (.value cBody)) none = .ok (none, []) ∧
    ∀ logs, fetchStep (.response 200 (.value cBody)) none = .ok (none, logs) →
      logs = [] := by
  refine ⟨rfl, fun logs h => ?_⟩
  have h2 : (Except.ok (none, ([] : List LogMsg)) :
      Except PyExn (Option Json × List LogMsg)) = .ok (none, logs) := h
  simp only [Except.ok.injEq, Prod.mk.injEq] at h2
  exact h2.2.symm

/-- Claim C6 amended: a single fetch yields an absent result and never
propagates an exception in each listed failure case — request error,
non-200 status, undecodable body, status field other than `"success"`,
missing detection object, missing identifier field — and logs a diagnostic
in each of them except when the detection object is empty (falsy), where
the absent result is produced silently. -/
theorem fetch_failure_behaviour :
    (∀ slot, fetchStep .requestError slot = .ok (slot, [.requestFailed])) ∧
    (∀ slot status body, status ≠ 200 →
      fetchStep (.response status body) slot = .ok (slot, [.httpError status])) ∧
    (∀ slot, fetchStep (.response 200 .invalid) slot =
      .ok (slot, [.jsonDecodeFailed])) ∧
    (∀ slot fs, isSuccess (fs.lookup "status") = false →
      fetchStep (.response 200 (.value (.obj fs))) slot =
        .ok (slot, [.serverErrorStatus])) ∧
    (∀ slot fs, isSuccess (fs.lookup "status") = true →
      fs.lookup "detection" = none →
      fetchStep (.response 200 (.value (.obj fs))) slot =
        .ok (slot, [.noDetections])) ∧
    (∀ slot fs ds, isSuccess (fs.lookup "status") = true →
      fs.lookup "detection" = some (.obj ds) → ds ≠ [] →
      ds.lookup "InPathName" = none →
      fetchStep (.response 200 (.value (.obj fs))) slot =
        .ok (slot, [.noPathnameFound])) ∧
    (∀ slot fs, isSuccess (fs.lookup "status") = true →
      fs.lookup "detection" = some (.obj []) →
      fetchStep (.response 200 (.value (.obj fs))) slot = .ok (slot, [])) := by
  refine ⟨fun slot => rfl, ?_, fun slot => rfl, ?_, ?_, ?_, ?_⟩
  · intro slot status body h
    simp [fetchStep, get_detection, h]
  · intro slot fs h
    simp [fetchStep, get_detection, h]
  · intro slot fs hs hd
    simp [fetchStep, get_detection, hs, hd]
  · intro slot fs ds hs hd hne hip
    have htr : jsonTruthy (.obj ds) = true := by
      simp [jsonTruthy, List.isEmpty_iff, hne]
    simp [fetchStep, get_detection, hs, hd, htr, extract_pathname, hip, pathTruthy]
  · intro slot fs hs hd
    simp [fetchStep, get_detection, hs, hd, jsonTruthy]

/-- Claim C6 amended witness at a 404 response. -/
theorem fetch_failure_behaviour_witness :
    fetchStep (.response 404 .invalid) none = .ok (none, [.httpError 404]) :=
  fetch_failure_behaviour.2.1 none 404 .invalid (by decide)

/-! ## Claims C9 and C10: the published envelope -/

lemma published_eq (s : OrchState) (i : IterInput) (env : Envelope)
    (h : (orchIter s i).2.published = some env) :
    env = ⟨get_robot_pose, (detection i.frameH i.frameW i.boxes).1,
           (detection i.frameH i.frameW i.boxes).2.length⟩ ∧
    (detection i.frameH i.frameW i.boxes).2.length ≠ 0 := by
  cases hg : evalsGating s.detectionPeriod i
  · rw [orchIter_not_gating s i hg] at h
    simp [quietOutput] at h
  · by_cases hp : i.pathName ∈ validPath
    · rcases eq_or_ne (detection i.frameH i.frameW i.boxes).2.length 0 with h0 | h0
      · rw [orchIter_eligible_none s i hg hp h0] at h
        simp at h
      · rw [orchIter_eligible_found s i hg hp h0] at h
        simp at h
        exact ⟨h.symm, h0⟩
    · cases hw : s.postedWarning
      · rw [orchIter_ineligible_fresh s i hg hp hw] at h
        simp at h
      · rw [orchIter_ineligible_warned s i hg hp hw] at h
        simp [quietOutput] at h

/-- Claim C9 counterexample: a concretely published envelope whose pose has
the five keys x, y, z, r, p — not six — because the dict literal in
`get_robot_pose` repeats the key `"y"`. -/
theorem pose_keys_counterexample :
    (orchIter initState inpPub).2.published = some env0 ∧
    env0.pose.map Prod.fst = ["x", "y", "z", "r", "p"] ∧
    (env0.pose.map Prod.fst).length ≠ 6 := by
  refine ⟨by rw [orchIter_pub], by decide, by decide⟩

/-- Claim C9 amended: every published envelope's pose field contains exactly
the five keys x, y, z, r, p, in this order; the duplicated `"y"` entry of
the source's dict literal overwrites the positional y, and no separate yaw
key exists. -/
theorem pose_keys_spec (s : OrchState) (i : IterInput) (env : Envelope)
    (h : (orchIter s i).2.published = some env) :
    env.pose.map Prod.fst = ["x", "y", "z", "r", "p"] := by
  obtain ⟨henv, -⟩ := published_eq s i env h
  rw [henv]
  show get_robot_pose.map Prod.fst = ["x", "y", "z", "r", "p"]
  decide

/-- Claim C9 amended witness at the concrete published envelope. -/
theorem pose_keys_spec_witness :
    env0.pose.map Prod.fst = ["x", "y", "z", "r", "p"] :=
  pose_keys_spec initState inpPub env0 (by rw [orchIter_pub])

/-- Claim C10: in every envelope that is actually published, `people_count`
equals the length of the `bounding_box` list and is at least 1. -/
theorem published_count_spec (s : OrchState) (i : IterInput) (env : Envelope)
    (h : (orchIter s i).2.published = some env) :
    env.people_count = env.bounding_box.length ∧ 1 ≤ env.people_count := by
  obtain ⟨henv, hne⟩ := published_eq s i env h
  subst henv
  refine ⟨?_, Nat.pos_of_ne_zero hne⟩
  simp [detection]

/-- Claim C10 witness at the concrete published envelope. -/
theorem published_count_spec_witness :
    env0.people_count = env0.bounding_box.length ∧ 1 ≤ env0.people_count :=
  published_count_spec initState inpPub env0 (by rw [orchIter_pub])

/-! ## Claim C7: configuration faults -/

/-- A configuration with a model path for `"person"` but no robot metadata
for the stream. -/
def cfg0 : Config :=
  ⟨[("person", "yolo.pt")], [], [("s1", "cam")], [("person", [0])],
   [("person", 0)]⟩

/-- Claim C7 counterexample: with the robot-metadata key absent, the run
does not exit at startup; it processes a frame and only exits (status 1)
when the first gating-passed detection cycle resolves the key. -/
theorem config_startup_counterexample :
    cfg0.robot.lookup "s1" = none ∧
    runMain cfg0 "person" "s1" [inpEmpty] = .exitedInLoop 1 ⟨1, []⟩ :=
  ⟨rfl, rfl⟩

/-- Claim C7 amended: a missing model-path entry exits at startup with
status 1 and the available keys, before any frame is processed; a missing
robot entry makes the per-cycle resolution fail with status 1 and the
available robot keys; for a model type outside the four special names the
class-list section is never consulted; and a cycle that reaches gating
with a failing resolution ends the run right there, after the frames read
so far plus this one. -/
theorem config_fault_behaviour :
    (∀ (cfg : Config) (mt st : String) (iters : List IterInput),
      cfg.models.lookup mt = none →
      runMain cfg mt st iters = .exitedAtStartup ⟨1, cfg.models.map Prod.fst⟩) ∧
    (∀ (cfg : Config) (mt st : String), cfg.robot.lookup st = none →
      resolveCycleConfig cfg mt st = .error ⟨1, cfg.robot.map Prod.fst⟩) ∧
    (∀ (cfg : Config) (mt st : String), mt ∉ specialTypes →
      resolveCycleConfig cfg mt st =
        resolveCycleConfig ⟨cfg.models, cfg.robot, cfg.camera, [],
          cfg.confidence⟩ mt st) ∧
    (∀ (cfg : Config) (mt st : String) (s : OrchState) (frames : Nat)
      (i : IterInput) (rest : List IterInput) (d : ExitDiag),
      i.frameOk = true → s.detectionPeriod < i.elapsed →
      i.pathName ∈ validPath → resolveCycleConfig cfg mt st = .error d →
      runLoop cfg mt st s frames (i :: rest) =
        .exitedInLoop (frames + 1) d) := by
  refine ⟨?_, ?_, ?_, ?_⟩
  · intro cfg mt st iters h
    simp [runMain, get_config, h]
  · intro cfg mt st h
    simp [resolveCycleConfig, get_config, h]
  · intro cfg mt st h
    simp [resolveCycleConfig, classListSelected, h]
  · intro cfg mt st s frames i rest d hf he hp hres
    simp [runLoop, hf, he, hp, hres]

/-- Claim C7 amended witness: startup exit on a missing model path, and the
in-loop exit of the counterexample configuration. -/
theorem config_fault_behaviour_witness :
    runMain (⟨[], [], [], [], []⟩ : Config) "person" "s1" [] =
      .exitedAtStartup ⟨1, []⟩ :=
  config_fault_behaviour.1 ⟨[], [], [], [], []⟩ "person" "s1" [] rfl

/-! ## Claim C8: class list and confidence resolution -/

/-- A configuration whose `classes` section has an entry for the model type
`"violence"`. -/
def cfg1 : Config :=
  ⟨[("violence", "v.pt")], [("s1", "rob")], [("s1", "cam")],
   [("violence", [3, 4])], [("violence", 0)]⟩

/-- Claim C8 counterexample: for the configured model type `"violence"` the
configuration keys a class list `[3, 4]`, yet the cycle passes the literal
`[0]` to the detection collaborator — the class list is not the configured
one. -/
theorem class_list_counterexample :
    cfg1.classes.lookup "violence" = some [3, 4] ∧
    resolveCycleConfig cfg1 "violence" "s1" = .ok ("rob", "cam", [0], 0) :=
  ⟨rfl, rfl⟩

/-- Claim C8 amended: whenever gating passes, the confidence threshold is
resolved from configuration for the configured model type; the class list
is resolved from configuration exactly when the model type is one of
bicylce, pets, vehicle, person, and is the literal `[0]` for every other
model type. -/
theorem class_confidence_resolution :
    (∀ (cfg : Config) (mt : String), mt ∈ specialTypes →
      classListSelected cfg mt = get_config cfg.classes mt) ∧
    (∀ (cfg : Config) (mt : String), mt ∉ specialTypes →
      classListSelected cfg mt = .ok [0]) ∧
    (∀ (cfg : Config) (mt st : String) (out : String × String × List Int × ℚ),
      resolveCycleConfig cfg mt st = .ok out →
      get_config cfg.confidence mt = .ok out.2.2.2 ∧
      classListSelected cfg mt = .ok out.2.2.1) := by
  refine ⟨?_, ?_, ?_⟩
  · intro cfg mt h
    simp [classListSelected, h]
  · intro cfg mt h
    simp [classListSelected, h]
  · intro cfg mt st out h
    cases h1 : get_config cfg.robot st with
    | error d => simp [resolveCycleConfig, h1] at h
    | ok robot =>
      cases h2 : get_config cfg.camera st with
      | error d => simp [resolveCycleConfig, h1, h2] at h
      | ok camera =>
        cases h3 : classListSelected cfg mt with
        | error d => simp [resolveCycleConfig, h1, h2, h3] at h
        | ok cls =>
          cases h4 : get_config cfg.confidence mt with
          | error d => simp [resolveCycleConfig, h1, h2, h3, h4] at h
          | ok conf =>
            simp [resolveCycleConfig, h1, h2, h3, h4] at h
            rw [← h]
            exact ⟨rfl, rfl⟩

/-- Claim C8 amended witness: for the special type `"person"` the class
list comes from configuration. -/
theorem class_confidence_resolution_witness :
    classListSelected cfg1 "person" = get_config cfg1.classes "person" :=
  class_confidence_resolution.1 cfg1 "person" (by decide)

end YoloSpec
